import Mathlib

/-!
Formal model of the Circleverse household-wealth simulation engine
(`simulation.py`): members (`Dot`), households (`ClusterCube`), towns
(`Circlverse`) and the top-level controller (`CircleverseSimulation`).

Real-valued quantities are modelled as rationals `ℚ`; the random draws of
the source (monthly expense variance, shock target selection) are passed in
explicitly as parameters, so every operation is a pure function of the
state and the draws.
-/

/-- The closed set of occupations (`OccupationType` in the source). -/
inductive OccupationType where
  | professional
  | skilled_trade
  | service
  | retail
  | unemployed
deriving DecidableEq, Repr

/-- Monthly base income by occupation (`OCCUPATION_INCOME`). -/
def OCCUPATION_INCOME : OccupationType → ℚ
  | .professional => 8000
  | .skilled_trade => 5000
  | .service => 3000
  | .retail => 2500
  | .unemployed => 0

/-- A household member (`Dot`). -/
structure Dot where
  age : ℤ
  occupation : OccupationType
  is_working : Bool
deriving DecidableEq, Repr

/-- `Dot.get_monthly_income`: base income for the occupation, times an
age factor (1.2 for ages 25–50, 0.8 below 25 or above 65, 1.0 otherwise),
and 0 if not working. -/
def Dot.get_monthly_income (d : Dot) : ℚ :=
  let base_income := OCCUPATION_INCOME d.occupation
  if ¬ d.is_working then 0
  else
    let age_factor : ℚ :=
      if 25 ≤ d.age ∧ d.age ≤ 50 then 12 / 10
      else if d.age < 25 ∨ d.age > 65 then 8 / 10
      else 1
    base_income * age_factor

/-- A household (`ClusterCube`). -/
structure ClusterCube where
  cube_id : String
  num_dots : ℕ
  dots : List Dot
  num_dependents : ℕ
  location : ℚ × ℚ
  current_wealth : ℚ
  savings_rate : ℚ
  monthly_expenses : ℚ
  wealth_history : List ℚ
  income_history : List ℚ
  expense_history : List ℚ
deriving DecidableEq, Repr

/-- `ClusterCube._calculate_base_expenses`: housing `1500 + 400·k`,
food `300 + 150·k`, other `500 + 100·k`, where `k = num_dots +
num_dependents`; summed. -/
def calculate_base_expenses (num_dots num_dependents : ℕ) : ℚ :=
  let base_housing : ℚ := 1500 + (num_dots + num_dependents : ℕ) * 400
  let base_food : ℚ := 300 + (num_dots + num_dependents : ℕ) * 150
  let base_other : ℚ := 500 + (num_dots + num_dependents : ℕ) * 100
  base_housing + base_food + base_other

/-- Construction of a `ClusterCube` with explicit members (the
`__post_init__` path where `dots` is provided): the expense baseline is
computed once from `num_dots` and `num_dependents`. -/
def mkClusterCube (cube_id : String) (num_dots : ℕ) (dots : List Dot)
    (num_dependents : ℕ) (savings_rate : ℚ) : ClusterCube :=
  { cube_id := cube_id
    num_dots := num_dots
    dots := dots
    num_dependents := num_dependents
    location := (0, 0)
    current_wealth := 0
    savings_rate := savings_rate
    monthly_expenses := calculate_base_expenses num_dots num_dependents
    wealth_history := []
    income_history := []
    expense_history := [] }

/-- `ClusterCube.get_total_income`: sum of member incomes. -/
def ClusterCube.get_total_income (c : ClusterCube) : ℚ :=
  (c.dots.map Dot.get_monthly_income).sum

/-- The snapshot record returned by `ClusterCube.simulate_month`. -/
structure MonthResult where
  income : ℚ
  expenses : ℚ
  net_income : ℚ
  savings : ℚ
  wealth : ℚ
deriving DecidableEq, Repr

/-- `ClusterCube.simulate_month`. The random draw
`random.uniform(-0.1, 0.1)` is the explicit parameter `u`:
income = total income × economic multiplier; expenses = baseline ×
cost-of-living × (1 + u); net = income − expenses; savings = net ×
savings rate when net > 0 else 0; wealth += savings; the new wealth,
income and expenses are appended to the three histories. Returns the
updated household and the snapshot. -/
def ClusterCube.simulate_month (c : ClusterCube)
    (cost_of_living_index economic_multiplier u : ℚ) :
    ClusterCube × MonthResult :=
  let base_income := c.get_total_income * economic_multiplier
  let expenses := c.monthly_expenses * cost_of_living_index * (1 + u)
  let net_income := base_income - expenses
  let savings := if net_income > 0 then net_income * c.savings_rate else 0
  let wealth := c.current_wealth + savings
  ({ c with
      current_wealth := wealth
      wealth_history := c.wealth_history ++ [wealth]
      income_history := c.income_history ++ [base_income]
      expense_history := c.expense_history ++ [expenses] },
   { income := base_income
     expenses := expenses
     net_income := net_income
     savings := savings
     wealth := wealth })

/-- The members eligible for a job-loss shock, paired with their position
in `dots`: currently working and not already unemployed (the filter in
`apply_economic_shock`). -/
def workingDots (dots : List Dot) : List (ℕ × Dot) :=
  dots.enum.filter fun p =>
    p.2.is_working && decide (p.2.occupation ≠ OccupationType.unemployed)

/-- The mutation performed on the chosen member by a job-loss shock:
occupation to unemployed, working flag to false. -/
def loseJob (d : Dot) : Dot :=
  { d with occupation := .unemployed, is_working := false }

/-- `ClusterCube.apply_economic_shock`. The uniformly random
`random.choice` among eligible members is modelled by the parameter
`choice`, reduced modulo the number of eligible members: `job_loss` sets
the chosen member to unemployed and not working (no-op when none is
eligible); `medical` and `windfall` add `magnitude` to wealth; any other
kind is a no-op. -/
def ClusterCube.apply_economic_shock (c : ClusterCube) (shock_type : String)
    (magnitude : ℚ) (choice : ℕ) : ClusterCube :=
  if shock_type = "job_loss" then
    let working := workingDots c.dots
    match working.get? (choice % working.length) with
    | none => c
    | some p => { c with dots := c.dots.set p.1 (loseJob p.2) }
  else if shock_type = "medical" then
    { c with current_wealth := c.current_wealth + magnitude }
  else if shock_type = "windfall" then
    { c with current_wealth := c.current_wealth + magnitude }
  else c

/-- A town (`Circlverse`): households sharing an economic multiplier and a
cost-of-living index, plus aggregate metrics. -/
structure Circlverse where
  circlverse_id : String
  radius : ℚ
  economic_multiplier : ℚ
  cost_of_living_index : ℚ
  cluster_cubes : List ClusterCube
  total_wealth : ℚ
  average_wealth : ℚ
  wealth_history : List ℚ
deriving DecidableEq, Repr

/-- `Circlverse._update_metrics`: recompute total and average wealth from
the households and append the average to the town wealth history; with no
households, set both to 0 and append 0. -/
def Circlverse.update_metrics (cv : Circlverse) : Circlverse :=
  if cv.cluster_cubes.isEmpty then
    { cv with
        total_wealth := 0
        average_wealth := 0
        wealth_history := cv.wealth_history ++ [0] }
  else
    let tw := (cv.cluster_cubes.map ClusterCube.current_wealth).sum
    let aw := tw / (cv.cluster_cubes.length : ℚ)
    { cv with
        total_wealth := tw
        average_wealth := aw
        wealth_history := cv.wealth_history ++ [aw] }

/-- `Circlverse.simulate_month`: advance every household one month with
the town's parameters, then update the aggregate metrics. The expense
variance draw of the household at position `i` is `us i`. -/
def Circlverse.simulate_month (cv : Circlverse) (us : ℕ → ℚ) : Circlverse :=
  let cubes := cv.cluster_cubes.enum.map fun p =>
    (p.2.simulate_month cv.cost_of_living_index cv.economic_multiplier (us p.1)).1
  Circlverse.update_metrics { cv with cluster_cubes := cubes }

/-- Minimum of a Python list via `min(...)` (callers guard nonemptiness). -/
def listMin : List ℚ → ℚ
  | [] => 0
  | x :: xs => xs.foldl min x

/-- Maximum of a Python list via `max(...)` (callers guard nonemptiness). -/
def listMax : List ℚ → ℚ
  | [] => 0
  | x :: xs => xs.foldl max x

/-- The mapping returned by `Circlverse.get_wealth_distribution` on a
nonempty town. -/
structure WealthDist where
  min : ℚ
  max : ℚ
  mean : ℚ
  median : ℚ
  total : ℚ
deriving DecidableEq, Repr

/-- `Circlverse.get_wealth_distribution`: `none` models the empty dict
returned when there are no households; otherwise min, max, mean, the
element at index `n / 2` of the ascending-sorted wealths, and total. -/
def Circlverse.get_wealth_distribution (cv : Circlverse) : Option WealthDist :=
  if cv.cluster_cubes.isEmpty then none
  else
    let wealths := cv.cluster_cubes.map ClusterCube.current_wealth
    some
      { min := listMin wealths
        max := listMax wealths
        mean := wealths.sum / (wealths.length : ℚ)
        median := (List.insertionSort (· ≤ ·) wealths).getD (wealths.length / 2) 0
        total := wealths.sum }

/-- `Circlverse.calculate_gini_coefficient`: 0 with fewer than two
households; otherwise `Σ w[i]·(2(i+1) − n − 1) / (n·Σw)` over the
ascending-sorted wealths, with a 0 result when the total is 0. -/
def Circlverse.calculate_gini_coefficient (cv : Circlverse) : ℚ :=
  if cv.cluster_cubes.length < 2 then 0
  else
    let wealths := List.insertionSort (· ≤ ·)
      (cv.cluster_cubes.map ClusterCube.current_wealth)
    let n : ℚ := (wealths.length : ℚ)
    let cumsum :=
      (wealths.enum.map fun p => p.2 * (2 * ((p.1 : ℚ) + 1) - n - 1)).sum
    if wealths.sum = 0 then 0
    else cumsum / (n * wealths.sum)

/-- The main controller (`CircleverseSimulation`). -/
structure CircleverseSimulation where
  circlverses : List Circlverse
  current_month : ℕ
  is_paused : Bool
  simulation_speed : ℕ
deriving Repr

/-- A fresh controller (`CircleverseSimulation.__init__`). -/
def mkSimulation : CircleverseSimulation :=
  { circlverses := [], current_month := 0, is_paused := false
    simulation_speed := 1 }

/-- `CircleverseSimulation.add_circlverse`. -/
def CircleverseSimulation.add_circlverse (s : CircleverseSimulation)
    (cv : Circlverse) : CircleverseSimulation :=
  { s with circlverses := s.circlverses ++ [cv] }

/-- One iteration of the loop body of `step`: every town simulates one
month, then the month counter is incremented. `us j i` is the expense
variance for household `i` of town `j`. -/
def CircleverseSimulation.stepOnce (s : CircleverseSimulation)
    (us : ℕ → ℕ → ℚ) : CircleverseSimulation :=
  { s with
      circlverses := s.circlverses.enum.map fun p => p.2.simulate_month (us p.1)
      current_month := s.current_month + 1 }

/-- The `for _ in range(months)` loop of `step`; `us k` supplies the
variance draws of iteration `k`. -/
def stepIter (us : ℕ → ℕ → ℕ → ℚ) :
    ℕ → CircleverseSimulation → CircleverseSimulation
  | 0, s => s
  | n + 1, s => stepIter (fun k => us (k + 1)) n (s.stepOnce (us 0))

/-- `CircleverseSimulation.step`: a no-op when paused, otherwise `months`
iterations of per-town simulation with the counter incremented once per
iteration. -/
def CircleverseSimulation.step (s : CircleverseSimulation) (months : ℕ)
    (us : ℕ → ℕ → ℕ → ℚ) : CircleverseSimulation :=
  if s.is_paused then s else stepIter us months s

/-- `CircleverseSimulation.run_until`: repeatedly `step(1)` while the
current month is below the target and the simulation is not paused. -/
def CircleverseSimulation.run_until (s : CircleverseSimulation)
    (target_month : ℕ) (us : ℕ → ℕ → ℕ → ℕ → ℚ) : CircleverseSimulation :=
  if h : s.current_month < target_month ∧ s.is_paused = false then
    (s.step 1 (us 0)).run_until target_month fun k => us (k + 1)
  else s
termination_by target_month - s.current_month
decreasing_by
  simp [CircleverseSimulation.step, h.2, stepIter,
    CircleverseSimulation.stepOnce]
  omega

/-- `CircleverseSimulation.pause`. -/
def CircleverseSimulation.pause (s : CircleverseSimulation) :
    CircleverseSimulation :=
  { s with is_paused := true }

/-- `CircleverseSimulation.resume`. -/
def CircleverseSimulation.resume (s : CircleverseSimulation) :
    CircleverseSimulation :=
  { s with is_paused := false }

/-- The per-household part of `reset`: wealth to 0, the three histories
emptied, everything else untouched. -/
def resetCube (c : ClusterCube) : ClusterCube :=
  { c with
      current_wealth := 0
      wealth_history := []
      income_history := []
      expense_history := [] }

/-- The per-town part of `reset`: every household reset and the town
wealth history emptied. -/
def resetCirclverse (cv : Circlverse) : Circlverse :=
  { cv with
      cluster_cubes := cv.cluster_cubes.map resetCube
      wealth_history := [] }

/-- `CircleverseSimulation.reset`: month counter to 0; wealth and
histories of every household of every town cleared; every town wealth
history cleared. -/
def CircleverseSimulation.reset (s : CircleverseSimulation) :
    CircleverseSimulation :=
  { s with
      current_month := 0
      circlverses := s.circlverses.map resetCirclverse }

/-- The mapping returned by `get_global_statistics` when at least one
household exists. -/
structure GlobalStatistics where
  total_households : ℕ
  total_circlverses : ℕ
  current_month : ℕ
  global_avg_wealth : ℚ
  global_total_wealth : ℚ
  global_min_wealth : ℚ
  global_max_wealth : ℚ
deriving DecidableEq, Repr

/-- `CircleverseSimulation.get_global_statistics`: `none` models the empty
dict returned when no household exists in any town. -/
def CircleverseSimulation.get_global_statistics (s : CircleverseSimulation) :
    Option GlobalStatistics :=
  let all_wealths := s.circlverses.flatMap fun cv =>
    cv.cluster_cubes.map ClusterCube.current_wealth
  if all_wealths.isEmpty then none
  else
    some
      { total_households := (s.circlverses.map fun cv => cv.cluster_cubes.length).sum
        total_circlverses := s.circlverses.length
        current_month := s.current_month
        global_avg_wealth := all_wealths.sum / (all_wealths.length : ℚ)
        global_total_wealth := all_wealths.sum
        global_min_wealth := listMin all_wealths
        global_max_wealth := listMax all_wealths }

/-- A public operation on the controller, together with the random
expense-variance draws it consumes. -/
inductive SimOp where
  | step (months : ℕ) (us : ℕ → ℕ → ℕ → ℚ)
  | run_until (target : ℕ) (us : ℕ → ℕ → ℕ → ℕ → ℚ)
  | pause
  | resume
  | reset
  | add_circlverse (cv : Circlverse)

/-- Apply one operation to the controller state. -/
def applyOp (s : CircleverseSimulation) : SimOp → CircleverseSimulation
  | .step n us => s.step n us
  | .run_until t us => s.run_until t us
  | .pause => s.pause
  | .resume => s.resume
  | .reset => s.reset
  | .add_circlverse cv => s.add_circlverse cv

/-- Apply a sequence of operations to the controller state. -/
def applyOps (s : CircleverseSimulation) : List SimOp → CircleverseSimulation
  | [] => s
  | op :: ops => applyOps (applyOp s op) ops

/-- The predicted evolution of the pair (month counter, paused flag):
a step while unpaused adds its months argument, a run_until while
unpaused raises the counter to the target, reset zeroes the counter, and
pause/resume set the flag. -/
def ghostStep : ℕ × Bool → SimOp → ℕ × Bool
  | (m, paused), .step n _ => (if paused then m else m + n, paused)
  | (m, paused), .run_until t _ => (if paused then m else max m t, paused)
  | (m, _), .pause => (m, true)
  | (m, _), .resume => (m, false)
  | (_, paused), .reset => (0, paused)
  | (m, paused), .add_circlverse _ => (m, paused)

/-- The ascending-sorted household wealths of a town, as used by the Gini
computation. -/
def sortedWealths (cv : Circlverse) : List ℚ :=
  List.insertionSort (· ≤ ·) (cv.cluster_cubes.map ClusterCube.current_wealth)

/-- Modelled from the spec: the discrete Gini formula
`Σ w[i]·(2(i+1) − n − 1) / (n · Σw)` over an ascending-sorted list `w`. -/
def giniFormulaSpec (w : List ℚ) : ℚ :=
  (w.enum.map fun p => p.2 * (2 * ((p.1 : ℚ) + 1) - (w.length : ℚ) - 1)).sum
    / ((w.length : ℚ) * w.sum)

/-- A household with a given identifier and wealth (used for concrete
town examples). -/
def cubeOfWealth (i : String) (w : ℚ) : ClusterCube :=
  { mkClusterCube i 1
      [{ age := 30, occupation := .service, is_working := true }] 0
      (15 / 100) with
    current_wealth := w }

/-- A town holding households with the given wealths. -/
def townOfWealths (ws : List ℚ) : Circlverse :=
  { circlverse_id := "town"
    radius := 100
    economic_multiplier := 1
    cost_of_living_index := 1
    cluster_cubes := ws.map (cubeOfWealth "cube")
    total_wealth := 0
    average_wealth := 0
    wealth_history := [] }

/-- The household of the scenario of C1: a professional aged 35 who is
working and an unemployed member aged 32 who is not working, no
dependents, savings rate 0.20. -/
def scenarioCube : ClusterCube :=
  mkClusterCube "h1" 2
    [{ age := 35, occupation := .professional, is_working := true },
     { age := 32, occupation := .unemployed, is_working := false }]
    0 (20 / 100)

/-- C1: for the scenario household the expense baseline is 3600, and one
`simulate_month` with cost-of-living 1, economic multiplier 1 and the
expense variance fixed at 0 yields income 9600, expenses 3600, net 6000,
savings 1200 and wealth 1200, both in the snapshot and in the updated
state. -/
theorem scenario_first_month :
    scenarioCube.monthly_expenses = 3600 ∧
    (scenarioCube.simulate_month 1 1 0).2.income = 9600 ∧
    (scenarioCube.simulate_month 1 1 0).2.expenses = 3600 ∧
    (scenarioCube.simulate_month 1 1 0).2.net_income = 6000 ∧
    (scenarioCube.simulate_month 1 1 0).2.savings = 1200 ∧
    (scenarioCube.simulate_month 1 1 0).2.wealth = 1200 ∧
    (scenarioCube.simulate_month 1 1 0).1.current_wealth = 1200 := by
  norm_num [scenarioCube, mkClusterCube, calculate_base_expenses,
    ClusterCube.simulate_month, ClusterCube.get_total_income,
    Dot.get_monthly_income, OCCUPATION_INCOME]

/-- C2: every `simulate_month` call appends exactly one element to each
of the three histories, so the three lengths stay equal whenever they
were equal before. -/
theorem simulate_month_appends_one (c : ClusterCube)
    (col mult u : ℚ) :
    (c.simulate_month col mult u).1.wealth_history.length
        = c.wealth_history.length + 1 ∧
    (c.simulate_month col mult u).1.income_history.length
        = c.income_history.length + 1 ∧
    (c.simulate_month col mult u).1.expense_history.length
        = c.expense_history.length + 1 ∧
    (c.wealth_history.length = c.income_history.length →
      c.income_history.length = c.expense_history.length →
      (c.simulate_month col mult u).1.wealth_history.length
          = (c.simulate_month col mult u).1.income_history.length ∧
        (c.simulate_month col mult u).1.income_history.length
          = (c.simulate_month col mult u).1.expense_history.length) := by
  simp [ClusterCube.simulate_month]
  omega

/-- Witness for C2 at a concrete household with equal history lengths. -/
theorem simulate_month_appends_one_witness :
    (scenarioCube.simulate_month 1 1 0).1.wealth_history.length
        = (scenarioCube.simulate_month 1 1 0).1.income_history.length ∧
    (scenarioCube.simulate_month 1 1 0).1.income_history.length
        = (scenarioCube.simulate_month 1 1 0).1.expense_history.length :=
  (simulate_month_appends_one scenarioCube 1 1 0).2.2.2 rfl rfl

/-- The weighted sum `Σ w[i]·(2(i+1) − n − 1)` over a constant list with
value `c`, starting the index at `k`. -/
theorem enumFrom_const_weighted_sum (c n : ℚ) :
    ∀ (l : List ℚ) (k : ℕ), (∀ x ∈ l, x = c) →
      ((l.enumFrom k).map fun p => p.2 * (2 * ((p.1 : ℚ) + 1) - n - 1)).sum
        = c * (l.length : ℚ) * (2 * (k : ℚ) + (l.length : ℚ) - n) := by
  intro l
  induction l with
  | nil => intro k _; simp
  | cons x xs ih =>
      intro k hall
      have hx : x = c := hall x (List.mem_cons_self _ _)
      have hxs : ∀ y ∈ xs, y = c := fun y hy => hall y (List.mem_cons_of_mem _ hy)
      simp only [List.enumFrom, List.map_cons, List.sum_cons, ih (k + 1) hxs,
        hx, List.length_cons]
      push_cast
      ring

/-- C3: the Gini coefficient is 0 with fewer than two households or zero
total wealth, equals the spec formula over the ascending-sorted wealths
otherwise, is 0 whenever all wealths are identical, and is 2/3 for the
wealths [0, 0, 100]. -/
theorem gini_conformance (cv : Circlverse) :
    (cv.cluster_cubes.length < 2 → cv.calculate_gini_coefficient = 0) ∧
    ((cv.cluster_cubes.map ClusterCube.current_wealth).sum = 0 →
      cv.calculate_gini_coefficient = 0) ∧
    (2 ≤ cv.cluster_cubes.length →
      (cv.cluster_cubes.map ClusterCube.current_wealth).sum ≠ 0 →
      cv.calculate_gini_coefficient = giniFormulaSpec (sortedWealths cv)) ∧
    (∀ c, (∀ w ∈ cv.cluster_cubes.map ClusterCube.current_wealth, w = c) →
      cv.calculate_gini_coefficient = 0) ∧
    (townOfWealths [0, 0, 100]).calculate_gini_coefficient = 2 / 3 := by
  have hperm : List.Perm (sortedWealths cv)
      (cv.cluster_cubes.map ClusterCube.current_wealth) :=
    List.perm_insertionSort _ _
  have hsum : (sortedWealths cv).sum
      = (cv.cluster_cubes.map ClusterCube.current_wealth).sum :=
    hperm.sum_eq
  refine ⟨?_, ?_, ?_, ?_, ?_⟩
  · intro h
    simp [Circlverse.calculate_gini_coefficient, h]
  · intro h
    by_cases h2 : cv.cluster_cubes.length < 2
    · simp [Circlverse.calculate_gini_coefficient, h2]
    · have hz : (sortedWealths cv).sum = 0 := by rw [hsum, h]
      simp only [sortedWealths] at hz
      simp [Circlverse.calculate_gini_coefficient, h2, hz]
  · intro h2 hnz
    have hz : (sortedWealths cv).sum ≠ 0 := by rw [hsum]; exact hnz
    simp only [sortedWealths] at hz
    simp [Circlverse.calculate_gini_coefficient, Nat.not_lt.mpr h2, hz,
      giniFormulaSpec, sortedWealths]
  · intro c hall
    by_cases h2 : cv.cluster_cubes.length < 2
    · simp [Circlverse.calculate_gini_coefficient, h2]
    · have hallS : ∀ x ∈ sortedWealths cv, x = c := fun x hx =>
        hall x (hperm.mem_iff.mp hx)
      have hcum := enumFrom_const_weighted_sum c
        ((sortedWealths cv).length : ℚ) (sortedWealths cv) 0 hallS
      simp only [Nat.cast_zero] at hcum
      have hcum0 :
          (((sortedWealths cv).enumFrom 0).map
            fun p => p.2 * (2 * ((p.1 : ℚ) + 1)
              - ((sortedWealths cv).length : ℚ) - 1)).sum = 0 := by
        rw [hcum]; ring
      simp only [sortedWealths] at hcum0
      simp only [List.length_insertionSort, List.length_map] at hcum0
      simp [Circlverse.calculate_gini_coefficient, h2, List.enum, hcum0]
  · norm_num [Circlverse.calculate_gini_coefficient, townOfWealths,
      cubeOfWealth, mkClusterCube, List.insertionSort, List.orderedInsert,
      List.enum, List.enumFrom]

/-- Witness for C3 at a one-household town. -/
theorem gini_conformance_witness :
    (townOfWealths [5]).calculate_gini_coefficient = 0 :=
  (gini_conformance (townOfWealths [5])).1 (by simp [townOfWealths])

/-- C6: with a nonnegative savings rate, `simulate_month` never decreases
wealth: wealth is unchanged when the net income is ≤ 0 and grows by
exactly net × savings rate when the net income is positive. -/
theorem simulate_month_wealth_never_decreases (c : ClusterCube)
    (col mult u : ℚ) (h : 0 ≤ c.savings_rate) :
    ((c.simulate_month col mult u).2.net_income ≤ 0 →
      (c.simulate_month col mult u).1.current_wealth = c.current_wealth) ∧
    (0 < (c.simulate_month col mult u).2.net_income →
      (c.simulate_month col mult u).1.current_wealth
        = c.current_wealth
            + (c.simulate_month col mult u).2.net_income * c.savings_rate) ∧
    c.current_wealth ≤ (c.simulate_month col mult u).1.current_wealth := by
  simp only [ClusterCube.simulate_month]
  set net := c.get_total_income * mult - c.monthly_expenses * col * (1 + u)
    with hnet
  by_cases hpos : 0 < net
  · refine ⟨fun hle => absurd hpos (not_lt.mpr hle), fun _ => ?_, ?_⟩
    · simp [hpos]
    · simp only [hpos, if_pos]
      nlinarith [mul_nonneg (le_of_lt hpos) h]
  · refine ⟨fun _ => ?_, fun hlt => absurd hlt hpos, ?_⟩
    · simp [hpos]
    · simp [hpos]

/-- Witness for C6 at the scenario household. -/
theorem simulate_month_wealth_never_decreases_witness :
    scenarioCube.current_wealth
      ≤ (scenarioCube.simulate_month 1 1 0).1.current_wealth :=
  (simulate_month_wealth_never_decreases scenarioCube 1 1 0
    (by norm_num [scenarioCube, mkClusterCube])).2.2

/-- C7: a job-loss shock is a no-op when no member is both working and
non-unemployed; otherwise, for every random choice, exactly one such
member is set to unemployed and not working and nothing else changes; a
shock of any kind other than job_loss, medical and windfall leaves the
household unchanged. -/
theorem apply_shock_conformance (c : ClusterCube) (magnitude : ℚ)
    (choice : ℕ) :
    (workingDots c.dots = [] →
      c.apply_economic_shock "job_loss" magnitude choice = c) ∧
    (workingDots c.dots ≠ [] →
      ∃ i, ∃ h : i < c.dots.length,
        (c.dots.get ⟨i, h⟩).is_working = true ∧
        (c.dots.get ⟨i, h⟩).occupation ≠ OccupationType.unemployed ∧
        c.apply_economic_shock "job_loss" magnitude choice =
          { c with dots := c.dots.set i (loseJob (c.dots.get ⟨i, h⟩)) }) ∧
    (∀ kind, kind ≠ "job_loss" → kind ≠ "medical" → kind ≠ "windfall" →
      c.apply_economic_shock kind magnitude choice = c) := by
  refine ⟨?_, ?_, ?_⟩
  · intro h
    simp [ClusterCube.apply_economic_shock, h]
  · intro hne
    have hlen : 0 < (workingDots c.dots).length := List.length_pos.mpr hne
    have hlt : choice % (workingDots c.dots).length
        < (workingDots c.dots).length := Nat.mod_lt _ hlen
    have hp : (workingDots c.dots).get? (choice % (workingDots c.dots).length)
        = some ((workingDots c.dots).get ⟨_, hlt⟩) := List.get?_eq_get hlt
    set p := (workingDots c.dots).get ⟨_, hlt⟩ with hpdef
    have hpmem : p ∈ workingDots c.dots := List.get_mem _ _ _
    have hpf := List.mem_filter.mp hpmem
    have henum : c.dots.get? p.1 = some p.2 :=
      List.mem_enum_iff_get?.mp hpf.1
    obtain ⟨hi, hget⟩ := List.get?_eq_some.mp henum
    have hpred : p.2.is_working = true
        ∧ p.2.occupation ≠ OccupationType.unemployed := by
      have := hpf.2
      simpa using this
    refine ⟨p.1, hi, ?_, ?_, ?_⟩
    · rw [hget]; exact hpred.1
    · rw [hget]; exact hpred.2
    · simp only [List.get?_eq_getElem?] at hp
      simp only [List.get_eq_getElem] at hget
      simp [ClusterCube.apply_economic_shock, hp, hget]
  · intro kind h1 h2 h3
    simp [ClusterCube.apply_economic_shock, h1, h2, h3]

/-- Witness for C7: an unknown shock kind leaves the scenario household
unchanged. -/
theorem apply_shock_conformance_witness :
    scenarioCube.apply_economic_shock "earthquake" 5 0 = scenarioCube :=
  (apply_shock_conformance scenarioCube 5 0).2.2 "earthquake"
    (by simp) (by simp) (by simp)

/-- One loop iteration of `step` adds 1 to the month counter and keeps
the paused flag. -/
theorem stepOnce_month_paused (s : CircleverseSimulation) (us : ℕ → ℕ → ℚ) :
    (s.stepOnce us).current_month = s.current_month + 1
      ∧ (s.stepOnce us).is_paused = s.is_paused :=
  ⟨rfl, rfl⟩

/-- The `step` loop adds its iteration count to the month counter and
keeps the paused flag. -/
theorem stepIter_month_paused :
    ∀ (n : ℕ) (us : ℕ → ℕ → ℕ → ℚ) (s : CircleverseSimulation),
      (stepIter us n s).current_month = s.current_month + n
        ∧ (stepIter us n s).is_paused = s.is_paused := by
  intro n
  induction n with
  | zero => intro us s; exact ⟨rfl, rfl⟩
  | succ k ih =>
      intro us s
      have h := ih (fun j => us (j + 1)) (s.stepOnce (us 0))
      simp only [stepIter] at h ⊢
      refine ⟨?_, ?_⟩
      · rw [h.1, (stepOnce_month_paused s (us 0)).1]; omega
      · rw [h.2, (stepOnce_month_paused s (us 0)).2]

/-- `step` keeps the paused flag and, when not paused, adds its months
argument to the counter; when paused it is the identity. -/
theorem step_month_paused (s : CircleverseSimulation) (n : ℕ)
    (us : ℕ → ℕ → ℕ → ℚ) :
    (s.is_paused = true → s.step n us = s)
      ∧ (s.is_paused = false →
          (s.step n us).current_month = s.current_month + n)
      ∧ (s.step n us).is_paused = s.is_paused := by
  refine ⟨fun h => ?_, fun h => ?_, ?_⟩
  · simp [CircleverseSimulation.step, h]
  · simp [CircleverseSimulation.step, h, (stepIter_month_paused n us s).1]
  · by_cases h : s.is_paused
    · simp [CircleverseSimulation.step, h]
    · simp [CircleverseSimulation.step, h,
        (stepIter_month_paused n us s).2]

/-- `run_until` while paused is the identity; while unpaused it raises
the month counter to the target and keeps the flag unpaused. -/
theorem run_until_month_paused :
    ∀ (fuel : ℕ) (s : CircleverseSimulation) (t : ℕ)
      (us : ℕ → ℕ → ℕ → ℕ → ℚ), t - s.current_month ≤ fuel →
      (s.is_paused = true → s.run_until t us = s)
        ∧ (s.is_paused = false →
            (s.run_until t us).current_month = max s.current_month t
              ∧ (s.run_until t us).is_paused = false) := by
  intro fuel
  induction fuel with
  | zero =>
      intro s t us hf
      have ht : t ≤ s.current_month := by omega
      rw [CircleverseSimulation.run_until]
      constructor
      · intro h
        simp [Nat.not_lt.mpr ht]
      · intro h
        simp only [Nat.not_lt.mpr ht]
        simp [Nat.max_eq_left ht, h]
  | succ k ih =>
      intro s t us hf
      constructor
      · intro h
        rw [CircleverseSimulation.run_until]
        simp [h]
      · intro h
        by_cases hlt : s.current_month < t
        · have hstep := step_month_paused s 1 (us 0)
          have hm : (s.step 1 (us 0)).current_month = s.current_month + 1 :=
            hstep.2.1 h
          have hpz : (s.step 1 (us 0)).is_paused = false := by
            rw [hstep.2.2]; exact h
          have hrec := ih (s.step 1 (us 0)) t (fun j => us (j + 1)) (by omega)
          rw [CircleverseSimulation.run_until]
          simp only [hlt, h, and_self, true_and, dite_true, if_pos]
          have h2 := hrec.2 hpz
          constructor
          · rw [h2.1, hm]; omega
          · exact h2.2
        · rw [CircleverseSimulation.run_until]
          simp only [hlt, false_and, dite_false]
          exact ⟨by omega, h⟩

/-- C4 counterexample: from a fresh controller, one completed `step` call
with months = 2 leaves the month counter at 2, not at 1. -/
theorem step_call_count_counterexample :
    (mkSimulation.step 2 fun _ _ _ => 0).current_month = 2 ∧
    (mkSimulation.step 2 fun _ _ _ => 0).current_month ≠ 1 := by
  constructor
  · simp [mkSimulation, CircleverseSimulation.step, stepIter,
      CircleverseSimulation.stepOnce]
  · simp [mkSimulation, CircleverseSimulation.step, stepIter,
      CircleverseSimulation.stepOnce]

/-- C4 (amended): across any sequence of operations, the month counter
and the paused flag evolve exactly as predicted by `ghostStep`: each
unpaused `step` call adds its months argument (a paused one adds
nothing), each unpaused `run_until` raises the counter to its target,
and `reset` zeroes it. -/
theorem current_month_trace (ops : List SimOp) :
    ∀ s : CircleverseSimulation,
      ((applyOps s ops).current_month, (applyOps s ops).is_paused)
        = ops.foldl ghostStep (s.current_month, s.is_paused) := by
  induction ops with
  | nil => intro s; rfl
  | cons op rest ih =>
      intro s
      rw [applyOps, List.foldl_cons]
      rw [ih (applyOp s op)]
      congr 1
      cases op with
      | step n us =>
          by_cases h : s.is_paused
          · simp [applyOp, ghostStep, (step_month_paused s n us).1 h, h]
          · have hp : s.is_paused = false := by simpa using h
            simp [applyOp, ghostStep, (step_month_paused s n us).2.1 hp,
              (step_month_paused s n us).2.2, hp]
      | run_until t us =>
          have hr := run_until_month_paused (t - s.current_month) s t us
            (le_refl _)
          by_cases h : s.is_paused
          · simp [applyOp, ghostStep, hr.1 h, h]
          · have hp : s.is_paused = false := by simpa using h
            have h2 := hr.2 hp
            simp [applyOp, ghostStep, h2.1, h2.2, hp]
      | pause => simp [applyOp, ghostStep, CircleverseSimulation.pause]
      | resume => simp [applyOp, ghostStep, CircleverseSimulation.resume]
      | reset => simp [applyOp, ghostStep, CircleverseSimulation.reset]
      | add_circlverse cv =>
          simp [applyOp, ghostStep, CircleverseSimulation.add_circlverse]

/-- C5: while paused, `step` with any months argument changes nothing at
all — the whole controller state, hence the month counter and every
household and town history, is identical. -/
theorem step_paused_noop (s : CircleverseSimulation) (n : ℕ)
    (us : ℕ → ℕ → ℕ → ℚ) (h : s.is_paused = true) :
    s.step n us = s := by
  simp [CircleverseSimulation.step, h]

/-- Witness for C5: `step 5` on a paused fresh controller is a no-op. -/
theorem step_paused_noop_witness :
    (mkSimulation.pause).step 5 (fun _ _ _ => 0) = mkSimulation.pause :=
  step_paused_noop (mkSimulation.pause) 5 (fun _ _ _ => 0) rfl

/-- C8: `reset` zeroes the month counter, zeroes every household's
wealth, empties every household's three histories and every town's
wealth history, and changes nothing else: members (with any prior shock
mutations), economic parameters, radius, identifiers, membership lists,
locations, savings rates and expense baselines all persist. -/
theorem reset_conformance (s : CircleverseSimulation) :
    s.reset.current_month = 0 ∧
    s.reset.circlverses.length = s.circlverses.length ∧
    ∀ i (h1 : i < s.reset.circlverses.length)
      (h2 : i < s.circlverses.length),
      (s.reset.circlverses.get ⟨i, h1⟩).circlverse_id
          = (s.circlverses.get ⟨i, h2⟩).circlverse_id ∧
      (s.reset.circlverses.get ⟨i, h1⟩).radius
          = (s.circlverses.get ⟨i, h2⟩).radius ∧
      (s.reset.circlverses.get ⟨i, h1⟩).economic_multiplier
          = (s.circlverses.get ⟨i, h2⟩).economic_multiplier ∧
      (s.reset.circlverses.get ⟨i, h1⟩).cost_of_living_index
          = (s.circlverses.get ⟨i, h2⟩).cost_of_living_index ∧
      (s.reset.circlverses.get ⟨i, h1⟩).wealth_history = [] ∧
      (s.reset.circlverses.get ⟨i, h1⟩).cluster_cubes.length
          = (s.circlverses.get ⟨i, h2⟩).cluster_cubes.length ∧
      ∀ j (hj1 : j < (s.reset.circlverses.get ⟨i, h1⟩).cluster_cubes.length)
        (hj2 : j < (s.circlverses.get ⟨i, h2⟩).cluster_cubes.length),
        ((s.reset.circlverses.get ⟨i, h1⟩).cluster_cubes.get ⟨j, hj1⟩)
          = resetCube
              ((s.circlverses.get ⟨i, h2⟩).cluster_cubes.get ⟨j, hj2⟩) ∧
        ((s.reset.circlverses.get ⟨i, h1⟩).cluster_cubes.get
            ⟨j, hj1⟩).current_wealth = 0 ∧
        ((s.reset.circlverses.get ⟨i, h1⟩).cluster_cubes.get
            ⟨j, hj1⟩).wealth_history = [] ∧
        ((s.reset.circlverses.get ⟨i, h1⟩).cluster_cubes.get
            ⟨j, hj1⟩).income_history = [] ∧
        ((s.reset.circlverses.get ⟨i, h1⟩).cluster_cubes.get
            ⟨j, hj1⟩).expense_history = [] ∧
        ((s.reset.circlverses.get ⟨i, h1⟩).cluster_cubes.get
            ⟨j, hj1⟩).dots
          = ((s.circlverses.get ⟨i, h2⟩).cluster_cubes.get ⟨j, hj2⟩).dots ∧
        ((s.reset.circlverses.get ⟨i, h1⟩).cluster_cubes.get
            ⟨j, hj1⟩).location
          = ((s.circlverses.get ⟨i, h2⟩).cluster_cubes.get
              ⟨j, hj2⟩).location ∧
        ((s.reset.circlverses.get ⟨i, h1⟩).cluster_cubes.get
            ⟨j, hj1⟩).monthly_expenses
          = ((s.circlverses.get ⟨i, h2⟩).cluster_cubes.get
              ⟨j, hj2⟩).monthly_expenses ∧
        ((s.reset.circlverses.get ⟨i, h1⟩).cluster_cubes.get
            ⟨j, hj1⟩).savings_rate
          = ((s.circlverses.get ⟨i, h2⟩).cluster_cubes.get
              ⟨j, hj2⟩).savings_rate ∧
        ((s.reset.circlverses.get ⟨i, h1⟩).cluster_cubes.get
            ⟨j, hj1⟩).cube_id
          = ((s.circlverses.get ⟨i, h2⟩).cluster_cubes.get
              ⟨j, hj2⟩).cube_id := by
  refine ⟨rfl, by simp [CircleverseSimulation.reset], ?_⟩
  intro i h1 h2
  simp [CircleverseSimulation.reset, resetCirclverse, resetCube]

/-- Witness for C8 on a one-town, one-household controller. -/
theorem reset_conformance_witness :
    ((mkSimulation.add_circlverse (townOfWealths [7])).reset.circlverses.get
        ⟨0, by simp [mkSimulation, CircleverseSimulation.add_circlverse,
          CircleverseSimulation.reset]⟩).wealth_history = [] :=
  ((reset_conformance (mkSimulation.add_circlverse (townOfWealths [7]))).2.2
    0 (by simp [mkSimulation, CircleverseSimulation.add_circlverse,
      CircleverseSimulation.reset])
    (by simp [mkSimulation,
      CircleverseSimulation.add_circlverse])).2.2.2.2.1

/-- C9: the distribution query of a town with no households and the
global statistics of a controller whose towns hold no households return
the empty result, and on a nonempty town the reported median is the
element at index n / 2 of the ascending-sorted wealths. -/
theorem empty_queries_conformance (cv : Circlverse)
    (s : CircleverseSimulation) :
    (cv.cluster_cubes = [] → cv.get_wealth_distribution = none) ∧
    ((∀ cv2 ∈ s.circlverses, cv2.cluster_cubes = []) →
      s.get_global_statistics = none) ∧
    (∀ w, cv.get_wealth_distribution = some w →
      w.median = (List.insertionSort (· ≤ ·)
          (cv.cluster_cubes.map ClusterCube.current_wealth)).getD
        ((cv.cluster_cubes.map ClusterCube.current_wealth).length / 2) 0) := by
  refine ⟨fun h => ?_, fun h => ?_, fun w hw => ?_⟩
  · simp [Circlverse.get_wealth_distribution, h]
  · have hall : (s.circlverses.flatMap fun cv2 =>
        cv2.cluster_cubes.map ClusterCube.current_wealth) = [] := by
      simp only [List.flatMap_eq_nil_iff]
      intro cv2 hcv2
      simp [h cv2 hcv2]
    simp [CircleverseSimulation.get_global_statistics, hall]
  · by_cases h : cv.cluster_cubes.isEmpty
    · simp [Circlverse.get_wealth_distribution, h] at hw
    · simp only [Circlverse.get_wealth_distribution, h, if_false,
        Bool.false_eq_true] at hw
      cases hw
      rfl

/-- Witness for C9: the empty town reports no distribution data. -/
theorem empty_queries_conformance_witness :
    (townOfWealths []).get_wealth_distribution = none :=
  (empty_queries_conformance (townOfWealths []) mkSimulation).1
    (by simp [townOfWealths])

/-- C10: `reset` does not touch the paused flag, so a paused controller
stays paused across `reset` — subsequent `step` and `run_until` calls
remain no-ops — and a running controller stays running. -/
theorem reset_preserves_pause (s : CircleverseSimulation) :
    s.reset.is_paused = s.is_paused ∧
    (s.is_paused = true → ∀ n us, s.reset.step n us = s.reset) ∧
    (s.is_paused = true → ∀ t us, s.reset.run_until t us = s.reset) := by
  have hp : s.reset.is_paused = s.is_paused := rfl
  refine ⟨hp, fun h n us => ?_, fun h t us => ?_⟩
  · exact (step_month_paused s.reset n us).1 (hp.trans h)
  · exact (run_until_month_paused (t - s.reset.current_month) s.reset t us
      (le_refl _)).1 (hp.trans h)

/-- Witness for C10: a paused one-town controller is unchanged by a
`step 3` after `reset`. -/
theorem reset_preserves_pause_witness :
    ((mkSimulation.add_circlverse (townOfWealths [1])).pause).reset.step 3
        (fun _ _ _ => 0)
      = ((mkSimulation.add_circlverse (townOfWealths [1])).pause).reset :=
  (reset_preserves_pause
    ((mkSimulation.add_circlverse (townOfWealths [1])).pause)).2.1 rfl 3
    (fun _ _ _ => 0)
